import Mathlib

/-!
Shallow embedding of `golang/sshtunnel/ssh_tunnel.go` (package `sshtunnel`)
and the parts of `main.go` that configure it, together with proofs settling
the specification claims.

Modelling conventions:
* Go `time.Duration` is `Nat` nanoseconds.
* The `*ssh.Client` handle, connections and occupied listen sockets are
  abstract identifiers (`Nat`); a nil Go pointer is `Option.none`.
* The behaviour of the external network (whether `ssh.Dial`,
  `(*ssh.Client).Dial`, `(*ssh.Client).Listen`, `net.Listen` succeed) is an
  explicit environment record passed to each embedded function.
* A Go call that can return a value, return an error, or crash the process
  with a runtime nil-pointer dereference is embedded as `GoResult`.
-/

namespace SshTunnel

/-- Go `time.Duration`, in nanoseconds. -/
abbrev Duration := Nat

/-- One second, as a Go `time.Duration` (`time.Second`). -/
def second : Duration := 1000000000

/-- The relevant surface of `ssh.ClientConfig` as built in `main.go`
(user name and password credential; the host-key callback carries no data
we track). -/
structure ClientConfig where
  user : String
  password : String
deriving Repr, DecidableEq

/-- Abstract identifier for a live `*ssh.Client` secure-session handle. -/
abbrev Client := Nat

/-- Abstract identifier for an open byte-stream connection (`net.Conn`). -/
abbrev Conn := Nat

/-- Abstract identifier for a bound accept endpoint (`net.Listener`). -/
abbrev ListenerId := Nat

/-- The mutable state of `type SSHTunnel struct` (ssh_tunnel.go lines 14-29).
The logger, the wait group and the mutex are modelled separately where a
claim needs them (task counting for the wait group, the lock automaton for
the mutex); the remaining fields are carried here.  A nil pointer field is
`none`. -/
structure SSHTunnel where
  sshConfig : ClientConfig
  host : String
  sshClient : Option Client
  netNetwork : String
  netAddress : String
  sshNetwork : String
  sshAddress : String
  listenerH : Option ListenerId
  closed : Bool
  attemptSleepTime : Duration
  ioTimeout : Duration
deriving Repr, DecidableEq

/-- `NewSSHTunnel` (lines 31-49): builds the tunnel value with both proxy
addresses hard-wired to host `"localhost"`, network `"tcp"`, a 3 second
reconnect backoff and a 30 second per-connection I/O timeout. -/
def NewSSHTunnel (sshConfig : ClientConfig) (host localPort remotePort : String) :
    SSHTunnel :=
  { sshConfig := sshConfig
    host := host
    sshClient := none
    netNetwork := "tcp"
    netAddress := "localhost:" ++ localPort
    sshNetwork := "tcp"
    sshAddress := "localhost:" ++ remotePort
    listenerH := none
    closed := false
    attemptSleepTime := 3 * second
    ioTimeout := 30 * second }

/-- Outcome of a Go call in this embedding: a value, a returned error, or a
process crash by runtime nil-pointer dereference (`panic`). -/
inductive GoResult (α : Type) where
  | ok (a : α)
  | goError (msg : String)
  | nilPanic
deriving Repr, DecidableEq

/-- Environment oracle for one pass through the session/dial/listen code:
what the external network makes of each primitive call.
`clientDial cl` is the result of `(*ssh.Client).Dial` on the live handle
`cl`; `connectResult` is the result of `ssh.Dial(“tcp”, c.host, c.sshConfig)`
inside `sshConnect` (a fresh handle on success); `clientListen cl` is the
result of `(*ssh.Client).Listen` on handle `cl`; `netListenResult` is the
result of `net.Listen` on the local address. -/
structure NetEnv where
  clientDial : Client → Option Conn
  connectResult : Option Client
  clientListen : Client → Option ListenerId
  netListenResult : Option ListenerId

/-- `closeSSH` (lines 80-89): if the handle is present, close it (errors from
the underlying close are logged and ignored) and set the field to nil; on a
nil handle the guard skips the close, so the field is nil either way. -/
def closeSSH (t : SSHTunnel) : SSHTunnel :=
  { t with sshClient := none }

/-- `closeListener` (lines 91-100): same guarded shape for the listener. -/
def closeListener (t : SSHTunnel) : SSHTunnel :=
  { t with listenerH := none }

/-- `sshConnect` (lines 102-116), minus the mutex (modelled by the lock
automaton below): close any previous handle, then `ssh.Dial`; on failure the
error is returned and the handle field stays nil, on success the fresh
handle is stored. Returns `true` iff the connect succeeded. -/
def sshConnect (env : NetEnv) (t : SSHTunnel) : SSHTunnel × Bool :=
  let t1 := closeSSH t
  match env.connectResult with
  | none => (t1, false)
  | some client => ({ t1 with sshClient := some client }, true)

/-- Result record of one `sshDial` call: the tunnel state after the call,
the Go result, and how many `sshConnect` reconnect attempts the call
triggered. -/
structure DialOutcome where
  tunnel : SSHTunnel
  result : GoResult Conn
  reconnects : Nat
deriving Repr, DecidableEq

/-- `sshDial` (lines 129-146), translated branch for branch:
* handle present, first `(*ssh.Client).Dial` succeeds: return the channel,
  no reconnect;
* handle present, first dial fails: call `sshConnect` (its error discarded,
  line 134) and immediately run `c.sshClient.Dial` again (line 135).  If the
  reconnect failed, `sshConnect` has left `c.sshClient = nil`, so that second
  call dereferences a nil `*ssh.Client`: a runtime panic, embedded as
  `nilPanic`.  If the reconnect succeeded, the own result of the retry is
  returned;
* handle nil: return the error `"sshClient is nil"` without any reconnect
  (lines 144-145). -/
def sshDial (env : NetEnv) (t : SSHTunnel) : DialOutcome :=
  match t.sshClient with
  | some cl =>
    match env.clientDial cl with
    | some conn => ⟨t, .ok conn, 0⟩
    | none =>
      let t1 := (sshConnect env t).1
      match t1.sshClient with
      | some cl2 =>
        match env.clientDial cl2 with
        | some conn => ⟨t1, .ok conn, 1⟩
        | none => ⟨t1, .goError "ssh.Dial failed", 1⟩
      | none => ⟨t1, .nilPanic, 1⟩
  | none => ⟨t, .goError "sshClient is nil", 0⟩

/-- Result record of one `sshListen` call, mirroring `DialOutcome`. -/
structure ListenOutcome where
  tunnel : SSHTunnel
  result : GoResult Unit
  reconnects : Nat
deriving Repr, DecidableEq

/-- `sshListen` (lines 160-178), same shape as `sshDial`: with a live handle
a failed `(*ssh.Client).Listen` triggers one `sshConnect` and one retry
(line 166 dereferences nil if the reconnect failed); with a nil handle it
returns the error `"sshClient is nil"` and triggers no reconnect.  On
success the new accept endpoint is stored in `c.listener`. -/
def sshListen (env : NetEnv) (t : SSHTunnel) : ListenOutcome :=
  match t.sshClient with
  | some cl =>
    match env.clientListen cl with
    | some l => ⟨{ t with listenerH := some l }, .ok (), 0⟩
    | none =>
      let t1 := (sshConnect env t).1
      match t1.sshClient with
      | some cl2 =>
        match env.clientListen cl2 with
        | some l => ⟨{ t1 with listenerH := some l }, .ok (), 1⟩
        | none => ⟨t1, .goError "ssh.Listen failed", 1⟩
      | none => ⟨t1, .nilPanic, 1⟩
  | none => ⟨t, .goError "sshClient is nil", 0⟩

/-- `netListen` (lines 148-158): plain local listen; stores the endpoint on
success, never touches the session handle. -/
def netListen (env : NetEnv) (t : SSHTunnel) : SSHTunnel × Bool :=
  match env.netListenResult with
  | none => (t, false)
  | some l => ({ t with listenerH := some l }, true)

/-! ### The supervisory loop, instrumented

For the retry-policy claims we track, alongside the tunnel state, how many
times the loop has attempted `sshConnect` (the secure-session connect), how
many listen attempts it has made and how many backoff sleeps it has taken. -/

/-- Observable counters of one running supervisory goroutine. -/
structure SupObs where
  tunnel : SSHTunnel
  connectAttempts : Nat
  listenAttempts : Nat
  sleeps : Nat
deriving Repr, DecidableEq

/-- Startup of the supervisory goroutine of `ReverseTunnel` (line 288) and
`ForwardTunnel` (line 203): the single unconditional `_ = c.sshConnect()`
before the outer loop, counted as one connect attempt. -/
def supStart (env : NetEnv) (t : SSHTunnel) : SupObs :=
  ⟨(sshConnect env t).1, 1, 0, 0⟩

/-- One iteration of the outer loop of `ReverseTunnel` (lines 290-295) in the case
the listen fails: `for !c.closed`, run `c.sshListen()`, and on error sleep
for the backoff and continue.  Returns `none` when this path is not taken —
either the loop guard stops the loop (`c.closed`), or the listen succeeded
(the code then enters the inner accept loop, outside this definition), or
the listen crashed (`nilPanic`). -/
def reverseListenRetryIter (env : NetEnv) (s : SupObs) : Option SupObs :=
  if s.tunnel.closed then none
  else
    match sshListen env s.tunnel with
    | ⟨t1, .goError _, n⟩ =>
      some ⟨t1, s.connectAttempts + n, s.listenAttempts + 1, s.sleeps + 1⟩
    | _ => none

/-- One iteration of the outer loop of `ForwardTunnel` (lines 205-210) in the case
the local listen fails: run `c.netListen()`, and on error sleep for the
backoff and continue.  `netListen` never touches the session, so no connect
attempt can occur here. -/
def forwardListenRetryIter (env : NetEnv) (s : SupObs) : Option SupObs :=
  if s.tunnel.closed then none
  else
    match netListen env s.tunnel with
    | (_, true) => none
    | (t1, false) =>
      some ⟨t1, s.connectAttempts, s.listenAttempts + 1, s.sleeps + 1⟩

/-- `k` consecutive failing-listen iterations of the reverse outer loop. -/
def reverseRetryRun (env : NetEnv) (s : SupObs) : Nat → Option SupObs
  | 0 => some s
  | k + 1 => (reverseRetryRun env s k).bind (reverseListenRetryIter env)

/-- `k` consecutive failing-listen iterations of the forward outer loop. -/
def forwardRetryRun (env : NetEnv) (s : SupObs) : Nat → Option SupObs
  | 0 => some s
  | k + 1 => (forwardRetryRun env s k).bind (forwardListenRetryIter env)

/-! ### Process-level task bookkeeping

`ForwardTunnel` (lines 194-198) and `ReverseTunnel` (lines 279-283) start
with `c.wg.Add(1); go func() { ... }()`, unconditionally: there is no
started-flag.  We track the number of supervisory goroutines spawned and the
wait-group counter. -/

/-- A tunnel value together with its spawned-task bookkeeping. -/
structure TunnelProc where
  tunnel : SSHTunnel
  supervisorLoops : Nat
  wgCount : Nat
deriving Repr, DecidableEq

/-- The synchronous effect of calling `ForwardTunnel` (lines 194-198): log,
`wg.Add(1)`, spawn one more supervisory goroutine, return.  Nothing is
checked first and nothing blocks: the body after `go` belongs to the goroutine,
not to the caller. -/
def ForwardTunnelStart (p : TunnelProc) : TunnelProc :=
  { p with supervisorLoops := p.supervisorLoops + 1, wgCount := p.wgCount + 1 }

/-- The synchronous effect of calling `ReverseTunnel` (lines 279-283):
identical spawn shape. -/
def ReverseTunnelStart (p : TunnelProc) : TunnelProc :=
  { p with supervisorLoops := p.supervisorLoops + 1, wgCount := p.wgCount + 1 }

/-- `closeInternal` (lines 76-79): close the listener, then the session
handle; both closes are nil-guarded and ignore already-closed errors, so
they are total and leave both fields nil. -/
def closeInternal (t : SSHTunnel) : SSHTunnel :=
  closeSSH (closeListener t)

/-- The state effect of `Close` (lines 51-56): set the closed flag, run
`closeInternal`; the trailing `c.wg.Wait()` is the join modelled by
`reverseListenRetryIter`/`forwardListenRetryIter` returning `none` on a
closed tunnel (the supervisory loops stop iterating). -/
def CloseTunnel (t : SSHTunnel) : SSHTunnel :=
  closeInternal { t with closed := true }

/-! ### The per-connection proxy task

`ForwardTunnel` lines 221-271 and `ReverseTunnel` lines 306-356 run the same
proxy block: obtain the second connection of the pair (via `sshDial` in
forward, `netDial` in reverse), on failure close the accepted connection and
return; on success set one absolute deadline, start two copy goroutines,
`wg.Wait()` for both, then close `lConn` and `rConn` once each.  `lConn` is
the locally obtained side in both orientations (the accepted connection in
forward, the `net.Dial`ed one in reverse), and the single `SetDeadline`
(line 236 resp. 321) is on `lConn`.  We model the task as a small-step
transition system whose preconditions encode the program order of the main
task goroutine and the join semantics of the inner wait group. -/

/-- A side of the proxied pair: `loc` is `lConn` (the plain local TCP side),
`rem` is `rConn` (the secure-session side in forward, the accepted
session-listener connection in reverse). -/
inductive Side where
  | loc
  | rem
deriving Repr, DecidableEq

/-- Tunnel orientation. -/
inductive Orientation where
  | fwd
  | rev
deriving Repr, DecidableEq

/-- The side of the pair that was obtained by `accept` (lines 213/298): in
forward orientation the local side, in reverse the remote side.  The
dial-failure branch closes exactly this side (line 227 resp. 312). -/
def acceptedSide : Orientation → Side
  | .fwd => .loc
  | .rev => .rem

/-- The side obtained by dialing after the accept. -/
def dialedSide : Orientation → Side
  | .fwd => .rem
  | .rev => .loc

/-- Termination cause of one copy direction (`io.Copy`, lines 246/255):
normal EOF, deadline expiry, or another transport error.  All three are
logged at most and treated identically by the surrounding code. -/
inductive CopyResult where
  | eof
  | deadlineExceeded
  | otherError
deriving Repr, DecidableEq

/-- Observable state of one proxy task: whether the second dial has
returned (`some true` success / `some false` failure), the absolute
deadline currently set on each side, which copy goroutines have been
started and have terminated, whether the inner `wg.Wait()` has returned,
how many times each side has been closed, and whether the task goroutine
has returned. -/
structure ProxyState where
  dialed : Option Bool
  deadlineLoc : Option Duration
  deadlineRem : Option Duration
  started1 : Bool
  started2 : Bool
  done1 : Bool
  done2 : Bool
  awaited : Bool
  closesLoc : Nat
  closesRem : Nat
  returned : Bool
deriving Repr, DecidableEq

/-- The task state at spawn time (line 221/306): nothing has happened. -/
def proxyInit : ProxyState :=
  { dialed := none, deadlineLoc := none, deadlineRem := none
    started1 := false, started2 := false, done1 := false, done2 := false
    awaited := false, closesLoc := 0, closesRem := 0, returned := false }

/-- How many times a given side has been closed. -/
def closes (s : ProxyState) : Side → Nat
  | .loc => s.closesLoc
  | .rem => s.closesRem

/-- Record one close of the given side. -/
def addClose (s : ProxyState) : Side → ProxyState
  | .loc => { s with closesLoc := s.closesLoc + 1 }
  | .rem => { s with closesRem := s.closesRem + 1 }

/-- One step of the proxy task of orientation `o`, spawned at time `t0`
with I/O timeout `ioT`.  Each constructor is one statement of the source,
its hypotheses the program point at which that statement runs:
* `dialOk`/`dialErr` — return of `c.sshDial()` (line 224) resp.
  `c.netDial()` (line 309);
* `errClose` — on dial failure the accepted connection is closed by this
  caller (line 227 resp. 312) and `errReturn` ends the task (line 232/317);
* `setDl` — `lConn.SetDeadline(time.Now().Add(c.ioTimeout))` (line 236/321),
  executed before either copy starts and only on `lConn`;
* `start1`/`start2` — the two `go func` copy directions (lines 243/252 and
  328/337), started in program order before the wait;
* `finish1`/`finish2` — a copy direction terminates with some
  `CopyResult`; nothing downstream depends on which;
* `await` — `wg.Wait()` (line 261/346) returns only when both copies have
  terminated;
* `closeL`, `closeR` — the two closes after the wait (lines 263 and
  267, resp. 348 and 352), each executed once in program order;
* `retOk` — the task goroutine returns. -/
inductive ProxyStep (o : Orientation) (t0 ioT : Duration) :
    ProxyState → ProxyState → Prop where
  | dialOk :
      ProxyStep o t0 ioT proxyInit { proxyInit with dialed := some true }
  | dialErr :
      ProxyStep o t0 ioT proxyInit { proxyInit with dialed := some false }
  | errClose (s : ProxyState) (h : s.dialed = some false)
      (hc : closes s (acceptedSide o) = 0) (hr : s.returned = false) :
      ProxyStep o t0 ioT s (addClose s (acceptedSide o))
  | errReturn (s : ProxyState) (h : s.dialed = some false)
      (hc : closes s (acceptedSide o) = 1) (hr : s.returned = false) :
      ProxyStep o t0 ioT s { s with returned := true }
  | setDl (s : ProxyState) (h : s.dialed = some true)
      (hd : s.deadlineLoc = none) (h1 : s.started1 = false) :
      ProxyStep o t0 ioT s { s with deadlineLoc := some (t0 + ioT) }
  | start1 (s : ProxyState) (h : s.dialed = some true)
      (hd : s.deadlineLoc = some (t0 + ioT)) (h1 : s.started1 = false) :
      ProxyStep o t0 ioT s { s with started1 := true }
  | start2 (s : ProxyState) (h1 : s.started1 = true) (h2 : s.started2 = false) :
      ProxyStep o t0 ioT s { s with started2 := true }
  | finish1 (s : ProxyState) (r : CopyResult) (h1 : s.started1 = true)
      (h2 : s.done1 = false) :
      ProxyStep o t0 ioT s { s with done1 := true }
  | finish2 (s : ProxyState) (r : CopyResult) (h1 : s.started2 = true)
      (h2 : s.done2 = false) :
      ProxyStep o t0 ioT s { s with done2 := true }
  | await (s : ProxyState) (h2 : s.started2 = true) (hd1 : s.done1 = true)
      (hd2 : s.done2 = true) (ha : s.awaited = false) :
      ProxyStep o t0 ioT s { s with awaited := true }
  | closeL (s : ProxyState) (ha : s.awaited = true) (hc : s.closesLoc = 0) :
      ProxyStep o t0 ioT s { s with closesLoc := s.closesLoc + 1 }
  | closeR (s : ProxyState) (ha : s.awaited = true) (hl : s.closesLoc = 1)
      (hc : s.closesRem = 0) :
      ProxyStep o t0 ioT s { s with closesRem := s.closesRem + 1 }
  | retOk (s : ProxyState) (h : s.dialed = some true) (hr : s.closesRem = 1)
      (hret : s.returned = false) :
      ProxyStep o t0 ioT s { s with returned := true }

/-- Reachable proxy-task states. -/
inductive ProxyReach (o : Orientation) (t0 ioT : Duration) : ProxyState → Prop where
  | init : ProxyReach o t0 ioT proxyInit
  | step {s s' : ProxyState} : ProxyReach o t0 ioT s →
      ProxyStep o t0 ioT s s' → ProxyReach o t0 ioT s'

/-- Inductive invariant of the proxy task, stated as a flat conjunction of
single facts. -/
def ProxyInv (o : Orientation) (t0 ioT : Duration) (s : ProxyState) : Prop :=
  s.deadlineRem = none ∧
  (s.deadlineLoc = none ∨ s.deadlineLoc = some (t0 + ioT)) ∧
  (s.started1 = true → s.dialed = some true) ∧
  (s.started1 = true → s.deadlineLoc = some (t0 + ioT)) ∧
  (s.started2 = true → s.started1 = true) ∧
  (s.done1 = true → s.started1 = true) ∧
  (s.done2 = true → s.started2 = true) ∧
  (s.awaited = true → s.done1 = true) ∧
  (s.awaited = true → s.done2 = true) ∧
  (s.awaited = true → s.started2 = true) ∧
  s.closesLoc ≤ 1 ∧
  s.closesRem ≤ 1 ∧
  (s.dialed = some true → 1 ≤ s.closesLoc → s.awaited = true) ∧
  (s.dialed = some true → 1 ≤ s.closesRem → s.awaited = true) ∧
  (s.dialed = some true → 1 ≤ s.closesRem → s.closesLoc = 1) ∧
  (s.dialed = some true → s.returned = true → s.closesRem = 1) ∧
  (s.dialed = some true → s.returned = true → s.closesLoc = 1) ∧
  (s.dialed = some true → s.returned = true → s.awaited = true) ∧
  (s.dialed = some false → closes s (dialedSide o) = 0) ∧
  (s.dialed = some false → s.returned = true → closes s (acceptedSide o) = 1) ∧
  (s.dialed = some false → s.started1 = false) ∧
  (s.dialed = some false → s.started2 = false) ∧
  (s.dialed = some false → s.done1 = false) ∧
  (s.dialed = some false → s.done2 = false) ∧
  (s.dialed = some false → s.awaited = false) ∧
  (s.dialed = none → s.closesLoc = 0) ∧
  (s.dialed = none → s.closesRem = 0) ∧
  (s.dialed = none → s.returned = false)

theorem proxyInv_init (o : Orientation) (t0 ioT : Duration) :
    ProxyInv o t0 ioT proxyInit := by
  cases o <;> simp [ProxyInv, proxyInit, closes, acceptedSide, dialedSide]

theorem proxyInv_step {o : Orientation} {t0 ioT : Duration} {s s' : ProxyState}
    (hinv : ProxyInv o t0 ioT s) (hstep : ProxyStep o t0 ioT s s') :
    ProxyInv o t0 ioT s' := by
  obtain ⟨i1, i2, i3, i4, i5, i6, i7, i8, i9, i10, i11, i12, i13, i14, i15,
    i16, i17, i18, i19, i20, i21, i22, i23, i24, i25, i26, i27, i28⟩ := hinv
  cases hstep with
  | dialOk => cases o <;> simp [ProxyInv, proxyInit, closes, acceptedSide, dialedSide]
  | dialErr => cases o <;> simp [ProxyInv, proxyInit, closes, acceptedSide, dialedSide]
  | errClose s h hc hr =>
      cases o <;>
        simp_all [ProxyInv, closes, addClose, acceptedSide, dialedSide]
  | errReturn s h hc hr =>
      cases o <;>
        simp_all [ProxyInv, closes, addClose, acceptedSide, dialedSide]
  | setDl s h hd h1 =>
      cases o <;>
        simp_all [ProxyInv, closes, acceptedSide, dialedSide]
  | start1 s h hd h1 =>
      cases o <;>
        simp_all [ProxyInv, closes, acceptedSide, dialedSide]
  | start2 s h1 h2 =>
      cases o <;>
        simp_all [ProxyInv, closes, acceptedSide, dialedSide]
  | finish1 s r h1 h2 =>
      cases o <;>
        simp_all [ProxyInv, closes, acceptedSide, dialedSide]
  | finish2 s r h1 h2 =>
      cases o <;>
        simp_all [ProxyInv, closes, acceptedSide, dialedSide]
  | await s h2 hdn1 hdn2 ha =>
      cases o <;>
        simp_all [ProxyInv, closes, acceptedSide, dialedSide]
  | closeL s ha hc =>
      cases o <;>
        simp_all [ProxyInv, closes, acceptedSide, dialedSide]
  | closeR s ha hl hc =>
      cases o <;>
        simp_all [ProxyInv, closes, acceptedSide, dialedSide]
  | retOk s h hr hret =>
      cases o <;>
        simp_all [ProxyInv, closes, acceptedSide, dialedSide]


theorem proxyInv_reach {o : Orientation} {t0 ioT : Duration} {s : ProxyState}
    (h : ProxyReach o t0 ioT s) : ProxyInv o t0 ioT s := by
  induction h with
  | init => exact proxyInv_init o t0 ioT
  | step _ hstep ih => exact proxyInv_step ih hstep

/-- Go `net.Conn` absolute-deadline contract (the external Plain Socket
collaborator): an I/O operation attempted at time `now` succeeds when no
deadline is set or `now` is still before the deadline; at or past the
deadline it fails with `os.ErrDeadlineExceeded`, regardless of how much
data flowed before. -/
def ioAllowed : Option Duration → Duration → Bool
  | none, _ => true
  | some d, now => decide (now < d)

/-! ### The `sshConnect` mutex

`sshConnect` (lines 102-104) runs its whole body under `c.mx`:
`defer c.mx.Unlock()` registers the release for return of the function, and
`c.mx.Lock()` is the first executed statement.  We model the goroutines
that may call `sshConnect` (every proxy task observing a dial failure, and
the supervisory loop) as tasks `0..n-1`, each outside the call, blocked at
`c.mx.Lock()`, or executing the locked body (lines 105-115). -/

/-- Position of one task with respect to `sshConnect`. -/
inductive TaskPhase where
  | outside
  | waiting
  | inConnect
deriving Repr, DecidableEq

/-- Global lock state: the phase of each task plus the mutex holder. -/
structure LockState (n : Nat) where
  phase : Fin n → TaskPhase
  owner : Option (Fin n)

/-- Steps of the lock automaton: a task calls `sshConnect` and blocks at
`c.mx.Lock()`; the mutex, when free, admits exactly one waiter; the
deferred `c.mx.Unlock()` frees it when the body returns. -/
inductive LockStep (n : Nat) : LockState n → LockState n → Prop where
  | request (s : LockState n) (i : Fin n) (h : s.phase i = .outside) :
      LockStep n s ⟨Function.update s.phase i .waiting, s.owner⟩
  | acquire (s : LockState n) (i : Fin n) (h : s.phase i = .waiting)
      (ho : s.owner = none) :
      LockStep n s ⟨Function.update s.phase i .inConnect, some i⟩
  | release (s : LockState n) (i : Fin n) (h : s.phase i = .inConnect)
      (ho : s.owner = some i) :
      LockStep n s ⟨Function.update s.phase i .outside, none⟩

/-- Initially no task is inside `sshConnect` and the mutex is free. -/
def lockInit (n : Nat) : LockState n := ⟨fun _ => .outside, none⟩

/-- Reachable lock states. -/
inductive LockReach (n : Nat) : LockState n → Prop where
  | init : LockReach n (lockInit n)
  | step {s s' : LockState n} : LockReach n s → LockStep n s s' → LockReach n s'

/-- One lock step preserves the holder invariant. -/
theorem lockInv_step {n : Nat} {s s' : LockState n} (hstep : LockStep n s s')
    (ih : ∀ i : Fin n, s.phase i = .inConnect → s.owner = some i) :
    ∀ i : Fin n, s'.phase i = .inConnect → s'.owner = some i := by
  cases hstep with
  | request i h =>
      intro j hj
      have hj' : Function.update s.phase i TaskPhase.waiting j =
          TaskPhase.inConnect := hj
      rw [Function.update_apply] at hj'
      show s.owner = some j
      by_cases hij : j = i
      · simp [hij] at hj'
      · simp [hij] at hj'
        exact ih j hj'
  | acquire i h ho =>
      intro j hj
      have hj' : Function.update s.phase i TaskPhase.inConnect j =
          TaskPhase.inConnect := hj
      rw [Function.update_apply] at hj'
      show some i = some j
      by_cases hij : j = i
      · rw [hij]
      · simp [hij] at hj'
        have hx := ih j hj'
        rw [ho] at hx
        exact absurd hx (by simp)
  | release i h ho =>
      intro j hj
      have hj' : Function.update s.phase i TaskPhase.outside j =
          TaskPhase.inConnect := hj
      rw [Function.update_apply] at hj'
      show (none : Option (Fin n)) = some j
      by_cases hij : j = i
      · simp [hij] at hj'
      · simp [hij] at hj'
        have hx := ih j hj'
        rw [ho] at hx
        exact absurd (Option.some.inj hx).symm hij

/-- A task executing the locked `sshConnect` body holds the mutex. -/
theorem lockInv_reach {n : Nat} {s : LockState n} (h : LockReach n s) :
    ∀ i : Fin n, s.phase i = .inConnect → s.owner = some i := by
  induction h with
  | init => intro i hi; exact absurd hi (by simp [lockInit])
  | step hr hstep ih => exact lockInv_step hstep ih

/-! ### Concrete states used by the witnesses and counterexamples -/

/-- An environment in which every network primitive fails. -/
def failEnv : NetEnv :=
  { clientDial := fun _ => none
    connectResult := none
    clientListen := fun _ => none
    netListenResult := none }

/-- An environment in which the reconnect succeeds (fresh handle `5`) and a
dial on the fresh handle succeeds with channel `77`, while a dial on a
stale handle fails. -/
def retryEnv : NetEnv :=
  { clientDial := fun cl => if cl == 5 then some 77 else none
    connectResult := some 5
    clientListen := fun _ => none
    netListenResult := none }

/-- A freshly constructed tunnel (session handle nil). -/
def freshTunnel : SSHTunnel :=
  NewSSHTunnel ⟨"root", "pw"⟩ "198.51.100.7:22" "8080" "8080"

/-- A tunnel holding a live-but-stale session handle `0`. -/
def staleTunnel : SSHTunnel :=
  { freshTunnel with sshClient := some 0 }

/-- Process bookkeeping before any start call. -/
def proc0 : TunnelProc := ⟨freshTunnel, 0, 0⟩

/-- The proxy-task state just after the first copy direction started
(forward orientation, spawned at time 0 with the default 30 s timeout). -/
def proxyMid : ProxyState :=
  { dialed := some true, deadlineLoc := some (0 + 30 * second),
    deadlineRem := none, started1 := true, started2 := false, done1 := false,
    done2 := false, awaited := false, closesLoc := 0, closesRem := 0,
    returned := false }

/-- The proxy-task state after a complete successful run. -/
def proxyRunEnd : ProxyState :=
  { dialed := some true, deadlineLoc := some (0 + 30 * second),
    deadlineRem := none, started1 := true, started2 := true, done1 := true,
    done2 := true, awaited := true, closesLoc := 1, closesRem := 1,
    returned := true }

theorem proxyMid_reach : ProxyReach .fwd 0 (30 * second) proxyMid := by
  have h0 : ProxyReach .fwd 0 (30 * second) proxyInit := .init
  have h1 := h0.step .dialOk
  have h2 := h1.step (.setDl _ rfl rfl rfl)
  have h3 := h2.step (.start1 _ rfl rfl rfl)
  exact h3

theorem proxyRunEnd_reach : ProxyReach .fwd 0 (30 * second) proxyRunEnd := by
  have h3 := proxyMid_reach
  have h4 := h3.step (.start2 _ rfl rfl)
  have h5 := h4.step (.finish1 _ .eof rfl rfl)
  have h6 := h5.step (.finish2 _ .eof rfl rfl)
  have h7 := h6.step (.await _ rfl rfl rfl rfl)
  have h8 := h7.step (.closeL _ rfl rfl)
  have h9 := h8.step (.closeR _ rfl rfl rfl)
  have h10 := h9.step (.retOk _ rfl rfl rfl)
  exact h10

/-- A lock state with task 0 inside `sshConnect`, reachable from the free
initial state. -/
def lockBusy : LockState 2 :=
  ⟨Function.update (Function.update (fun _ => TaskPhase.outside) 0 .waiting)
      0 .inConnect, some 0⟩

theorem lockBusy_reach : LockReach 2 lockBusy := by
  have h0 : LockReach 2 (lockInit 2) := .init
  have h1 := h0.step (LockStep.request _ 0 rfl)
  have h2 := h1.step (LockStep.acquire _ 0 (by simp [Function.update]) rfl)
  exact h2

/-! ## Claim theorems -/

/-- Claim C1: the spec demands that no error ever crashes the process and
that the second `Dial` in `sshDial` never dereferences a nil session handle.
The code violates this: with a live-but-stale handle, a failing first dial
and a failing reconnect, the retry at line 135 runs `c.sshClient.Dial` on
the nil handle that the failed `sshConnect` left behind — a runtime
nil-pointer dereference that crashes the process, evaluated here at that
failing input. -/
theorem sshDial_double_failure_panics :
    (sshDial failEnv staleTunnel).result = GoResult.nilPanic := rfl

/-- Claim C2, counterexample: with no session currently established
(`sshClient = nil`), a forward connection acquisition triggers zero
reconnect attempts — not exactly one — and returns the error
`"sshClient is nil"` immediately, refuting the clause "for every state of
the session handle, including when no session is currently established". -/
theorem sshDial_nil_handle_no_reconnect :
    (sshDial failEnv freshTunnel).reconnects = 0 ∧
    (sshDial failEnv freshTunnel).result = GoResult.goError "sshClient is nil" :=
  ⟨rfl, rfl⟩

/-- Claim C2, amended: when a session handle is present and the
session-backed dial fails, exactly one reconnect attempt is triggered and
the dial is retried exactly once; if the reconnect succeeded, the success or failure of the retried
dial itself is returned (on failure the error
`"ssh.Dial failed"`); when no session handle is present an error is
returned immediately with no reconnect; and in every proxy-task run that
returns after a failed acquisition, the accepted connection was closed by
the caller exactly once. -/
theorem sshDial_retry_policy :
    (∀ (env : NetEnv) (t : SSHTunnel) (cl : Client),
      t.sshClient = some cl → env.clientDial cl = none →
        (sshDial env t).reconnects = 1 ∧
        ∀ cl2 : Client, env.connectResult = some cl2 →
          (sshDial env t).result =
            match env.clientDial cl2 with
            | some conn => GoResult.ok conn
            | none => GoResult.goError "ssh.Dial failed") ∧
    (∀ (env : NetEnv) (t : SSHTunnel), t.sshClient = none →
        (sshDial env t).reconnects = 0 ∧
        (sshDial env t).result = GoResult.goError "sshClient is nil") ∧
    (∀ (o : Orientation) (t0 ioT : Duration) (s : ProxyState),
      ProxyReach o t0 ioT s → s.dialed = some false → s.returned = true →
        closes s (acceptedSide o) = 1) := by
  refine ⟨?_, ?_, ?_⟩
  · intro env t cl hcl hfail
    constructor
    · cases hc : env.connectResult with
      | none => simp [sshDial, hcl, hfail, sshConnect, closeSSH, hc]
      | some c2 =>
          cases hd2 : env.clientDial c2 <;>
            simp [sshDial, hcl, hfail, sshConnect, closeSSH, hc, hd2]
    · intro cl2 hc
      cases hd2 : env.clientDial cl2 <;>
        simp [sshDial, hcl, hfail, sshConnect, closeSSH, hc, hd2]
  · intro env t h
    exact ⟨by simp [sshDial, h], by simp [sshDial, h]⟩
  · intro o t0 ioT s hreach hdial hret
    obtain ⟨i1, i2, i3, i4, i5, i6, i7, i8, i9, i10, i11, i12, i13, i14, i15,
      i16, i17, i18, i19, i20, i21, i22, i23, i24, i25, i26, i27, i28⟩ :=
      proxyInv_reach hreach
    exact i20 hdial hret

/-- Claim C2, witness: with stale handle `0`, a failing first dial, a
reconnect that yields handle `5` and a retry that succeeds with channel
`77`, the acquisition performs exactly one reconnect and returns the
channel. -/
theorem sshDial_retry_policy_witness :
    (sshDial retryEnv staleTunnel).reconnects = 1 ∧
    (sshDial retryEnv staleTunnel).result = GoResult.ok 77 := by
  have h := sshDial_retry_policy
  refine ⟨(h.1 retryEnv staleTunnel 0 rfl rfl).1, ?_⟩
  have h2 := (h.1 retryEnv staleTunnel 0 rfl rfl).2 5 rfl
  rw [show retryEnv.clientDial 5 = some 77 from rfl] at h2
  exact h2

/-- Claim C3, counterexample: a reachable forward proxy-task state in which
the first copy direction has already started while the remote side has no
deadline set — the deadline is not set "on both sides of the pair before
either copy direction starts". -/
theorem proxy_deadline_missing_on_remote :
    ProxyReach .fwd 0 (30 * second) proxyMid ∧
    proxyMid.started1 = true ∧ proxyMid.deadlineRem = none :=
  ⟨proxyMid_reach, rfl, rfl⟩

/-- Claim C3, amended: in both orientations, before either copy direction
starts an absolute deadline of start-time + I/O-timeout has been set on the
locally obtained side (`lConn`) only; the remote side of the pair never has
a deadline, so the bounded-lifetime guarantee applies to the deadlined
local side only. -/
theorem proxy_deadline_local_side_only :
    ∀ (o : Orientation) (t0 ioT : Duration) (s : ProxyState),
      ProxyReach o t0 ioT s →
        s.deadlineRem = none ∧
        (s.started1 = true → s.deadlineLoc = some (t0 + ioT)) := by
  intro o t0 ioT s h
  have hinv := proxyInv_reach h
  exact ⟨hinv.1, hinv.2.2.2.1⟩

/-- Claim C3, amended-claim witness at the concrete mid-run state. -/
theorem proxy_deadline_local_side_only_witness :
    proxyMid.deadlineRem = none ∧
    proxyMid.deadlineLoc = some (0 + 30 * second) := by
  have h := proxy_deadline_local_side_only .fwd 0 (30 * second) proxyMid
    proxyMid_reach
  exact ⟨h.1, h.2 rfl⟩

/-- Claim C4, counterexample: startup with a persistently failing secure-
session connect, followed by five backoff-separated iterations of the
reverse outer loop: the connect-attempt count is still 1 — the failed
connect never "leads back to another connect attempt after a backoff
sleep"; only the (always-failing) listen is retried. -/
theorem reverse_connect_not_retried :
    (reverseRetryRun failEnv (supStart failEnv freshTunnel) 5).map
      (fun s => (s.connectAttempts, s.sleeps)) = some (1, 5) := rfl

/-- Claim C4, amended: the secure-session connect is attempted exactly once,
at supervisory-loop startup; thereafter, while the tunnel is not closed and
the connect keeps failing, each outer-loop iteration retries the listen
(`sshListen` in reverse — failing with `"sshClient is nil"` — and
`netListen` in forward) after the fixed backoff sleep, forever, without any
further connect attempt, and the session handle stays nil. -/
theorem connect_attempted_once_listen_retried :
    ∀ (env : NetEnv) (t : SSHTunnel) (k : Nat),
      env.connectResult = none → env.netListenResult = none →
      t.closed = false →
        reverseRetryRun env (supStart env t) k =
          some ⟨closeSSH t, 1, k, k⟩ ∧
        forwardRetryRun env (supStart env t) k =
          some ⟨closeSSH t, 1, k, k⟩ := by
  intro env t k hc hn ht
  induction k with
  | zero =>
      constructor <;>
        simp [reverseRetryRun, forwardRetryRun, supStart, sshConnect,
          closeSSH, hc]
  | succ k ih =>
      obtain ⟨ih1, ih2⟩ := ih
      constructor
      · simp [reverseRetryRun, ih1, reverseListenRetryIter, closeSSH, ht,
          sshListen]
      · simp [forwardRetryRun, ih2, forwardListenRetryIter, closeSSH, ht,
          netListen, hn]

/-- Claim C4, amended-claim witness: three failing reverse iterations from
a concrete tunnel keep the connect-attempt count at one. -/
theorem connect_attempted_once_listen_retried_witness :
    reverseRetryRun failEnv (supStart failEnv freshTunnel) 3 =
      some ⟨closeSSH freshTunnel, 1, 3, 3⟩ :=
  (connect_attempted_once_listen_retried failEnv freshTunnel 3 rfl rfl rfl).1

/-- Claim C5, counterexample: calling start twice spawns two supervisory
loops (in both orientations) where one call spawns one — starting an
already-started tunnel is not free of additional effect. -/
theorem start_twice_spawns_second_loop :
    (ForwardTunnelStart (ForwardTunnelStart proc0)).supervisorLoops = 2 ∧
    (ForwardTunnelStart proc0).supervisorLoops = 1 ∧
    (ReverseTunnelStart (ReverseTunnelStart proc0)).supervisorLoops = 2 :=
  ⟨rfl, rfl, rfl⟩

/-- Claim C5, amended: every call to `ForwardTunnel`/`ReverseTunnel`
unconditionally spawns one more supervisory loop and increments the
wait-group counter (there is no started-flag, so a repeated start adds a
second loop); the call itself performs nothing else — it leaves the tunnel
fields unchanged and returns immediately without blocking. -/
theorem start_unconditionally_spawns :
    ∀ p : TunnelProc,
      (ForwardTunnelStart p).supervisorLoops = p.supervisorLoops + 1 ∧
      (ForwardTunnelStart p).wgCount = p.wgCount + 1 ∧
      (ForwardTunnelStart p).tunnel = p.tunnel ∧
      (ReverseTunnelStart p).supervisorLoops = p.supervisorLoops + 1 ∧
      (ReverseTunnelStart p).wgCount = p.wgCount + 1 ∧
      (ReverseTunnelStart p).tunnel = p.tunnel :=
  fun _ => ⟨rfl, rfl, rfl, rfl, rfl, rfl⟩

/-- Claim C6: `Close` is safe under every call pattern: after it the closed
flag is set and both the listener and the session handle are nil; a
repeated `Close` leaves the state unchanged; closing a never-started tunnel
only sets the flag (handles were already nil, and the nil-guarded closes make
the call total — no panic); and once the flag is set every supervisory loop
stops iterating, so the trailing `wg.Wait()` is not blocked by the loops. -/
theorem close_safe_and_idempotent :
    (∀ t : SSHTunnel, (CloseTunnel t).closed = true ∧
      (CloseTunnel t).listenerH = none ∧ (CloseTunnel t).sshClient = none) ∧
    (∀ t : SSHTunnel, CloseTunnel (CloseTunnel t) = CloseTunnel t) ∧
    (∀ (cfg : ClientConfig) (host lp rp : String),
      CloseTunnel (NewSSHTunnel cfg host lp rp) =
        { NewSSHTunnel cfg host lp rp with closed := true }) ∧
    (∀ (env : NetEnv) (s : SupObs), s.tunnel.closed = true →
      reverseListenRetryIter env s = none ∧
      forwardListenRetryIter env s = none) := by
  refine ⟨fun t => ⟨rfl, rfl, rfl⟩, fun t => rfl, fun cfg host lp rp => rfl, ?_⟩
  intro env s h
  constructor <;> simp [reverseListenRetryIter, forwardListenRetryIter, h]

/-- Claim C6, witness: the supervisory loops take no iteration on a
concretely closed tunnel. -/
theorem close_safe_and_idempotent_witness :
    reverseListenRetryIter failEnv ⟨CloseTunnel freshTunnel, 1, 0, 0⟩ = none ∧
    forwardListenRetryIter failEnv ⟨CloseTunnel freshTunnel, 1, 0, 0⟩ = none :=
  close_safe_and_idempotent.2.2.2 failEnv ⟨CloseTunnel freshTunnel, 1, 0, 0⟩ rfl

/-- Claim C7: at most one `sshConnect` executes at any instant — in every
reachable state of the lock automaton, any two tasks inside the locked
connect body are the same task, so concurrent dial-failure observers
serialize through the single mutex-guarded connect path. -/
theorem connect_mutual_exclusion :
    ∀ (n : Nat) (s : LockState n) (i j : Fin n), LockReach n s →
      s.phase i = .inConnect → s.phase j = .inConnect → i = j := by
  intro n s i j hr hi hj
  have h1 := lockInv_reach hr i hi
  have h2 := lockInv_reach hr j hj
  exact Option.some.inj (h1.symm.trans h2)

/-- Claim C7, witness at a concrete reachable state with a task inside the
connect body. -/
theorem connect_mutual_exclusion_witness : (0 : Fin 2) = 0 :=
  connect_mutual_exclusion 2 lockBusy 0 0 lockBusy_reach
    (by simp [lockBusy, Function.update]) (by simp [lockBusy, Function.update])

/-- Claim C8: in every reachable proxy-task state, the wait returns only
after both copy directions were started and both terminated; no side is
ever closed twice; a side is closed only after both copy directions have
terminated (whatever their results); and a completed successful run has
closed each side exactly once. -/
theorem proxy_close_discipline :
    ∀ (o : Orientation) (t0 ioT : Duration) (s : ProxyState),
      ProxyReach o t0 ioT s →
        (s.awaited = true → s.started1 = true ∧ s.started2 = true) ∧
        s.closesLoc ≤ 1 ∧ s.closesRem ≤ 1 ∧
        (s.dialed = some true → 1 ≤ s.closesLoc →
          s.done1 = true ∧ s.done2 = true) ∧
        (s.dialed = some true → 1 ≤ s.closesRem →
          s.done1 = true ∧ s.done2 = true) ∧
        (s.dialed = some true → s.returned = true →
          s.closesLoc = 1 ∧ s.closesRem = 1) := by
  intro o t0 ioT s h
  obtain ⟨i1, i2, i3, i4, i5, i6, i7, i8, i9, i10, i11, i12, i13, i14, i15,
    i16, i17, i18, i19, i20, i21, i22, i23, i24, i25, i26, i27, i28⟩ :=
    proxyInv_reach h
  refine ⟨fun ha => ⟨i5 (i10 ha), i10 ha⟩, i11, i12, ?_, ?_, ?_⟩
  · intro hd hc
    have ha := i13 hd hc
    exact ⟨i8 ha, i9 ha⟩
  · intro hd hc
    have ha := i14 hd hc
    exact ⟨i8 ha, i9 ha⟩
  · intro hd hr
    exact ⟨i17 hd hr, i16 hd hr⟩

/-- Claim C8, witness: the completed concrete run closed each side exactly
once. -/
theorem proxy_close_discipline_witness :
    proxyRunEnd.closesLoc = 1 ∧ proxyRunEnd.closesRem = 1 :=
  (proxy_close_discipline .fwd 0 (30 * second) proxyRunEnd
    proxyRunEnd_reach).2.2.2.2.2 rfl rfl

/-- Claim C9: `NewSSHTunnel` binds both proxy addresses to host
`"localhost"` over `"tcp"` (`"localhost:"+localPort` locally and
`"localhost:"+remotePort` on the session side — the remote target host is
not configurable, only its port), with `closed = false`, nil handles, a
3 second reconnect backoff and a 30 second per-connection I/O timeout. -/
theorem newSSHTunnel_defaults :
    ∀ (cfg : ClientConfig) (host localPort remotePort : String),
      (NewSSHTunnel cfg host localPort remotePort).netNetwork = "tcp" ∧
      (NewSSHTunnel cfg host localPort remotePort).sshNetwork = "tcp" ∧
      (NewSSHTunnel cfg host localPort remotePort).netAddress =
        "localhost:" ++ localPort ∧
      (NewSSHTunnel cfg host localPort remotePort).sshAddress =
        "localhost:" ++ remotePort ∧
      (NewSSHTunnel cfg host localPort remotePort).closed = false ∧
      (NewSSHTunnel cfg host localPort remotePort).attemptSleepTime =
        3 * second ∧
      (NewSSHTunnel cfg host localPort remotePort).ioTimeout = 30 * second ∧
      (NewSSHTunnel cfg host localPort remotePort).sshClient = none ∧
      (NewSSHTunnel cfg host localPort remotePort).listenerH = none ∧
      (NewSSHTunnel cfg host localPort remotePort).host = host :=
  fun _ _ _ _ => ⟨rfl, rfl, rfl, rfl, rfl, rfl, rfl, rfl, rfl, rfl⟩

/-- Claim C10: the per-connection deadline is absolute and set exactly once
per proxy task — no step of the task ever changes an already-set deadline,
in every reachable state the deadlined side is the locally obtained one and
its value is start-time + I/O-timeout — and under the `net.Conn` deadline
contract every I/O on that side at or after the deadline instant fails,
regardless of traffic. -/
theorem proxy_deadline_absolute_never_refreshed :
    (∀ (o : Orientation) (t0 ioT : Duration) (s s' : ProxyState)
      (d : Duration), ProxyStep o t0 ioT s s' → s.deadlineLoc = some d →
        s'.deadlineLoc = some d) ∧
    (∀ (o : Orientation) (t0 ioT : Duration) (s : ProxyState),
      ProxyReach o t0 ioT s →
        s.deadlineRem = none ∧
        (s.started1 = true → s.deadlineLoc = some (t0 + ioT))) ∧
    (∀ d now : Duration, d ≤ now → ioAllowed (some d) now = false) := by
  refine ⟨?_, ?_, ?_⟩
  · intro o t0 ioT s s' d hstep hd
    cases hstep <;> cases o <;> simp_all [addClose, acceptedSide]
  · intro o t0 ioT s h
    have hinv := proxyInv_reach h
    exact ⟨hinv.1, hinv.2.2.2.1⟩
  · intro d now h
    have hn : ¬ now < d := Nat.not_lt.mpr h
    simp [ioAllowed, hn]

/-- Claim C10, witness at the completed concrete run and its deadline. -/
theorem proxy_deadline_absolute_never_refreshed_witness :
    proxyRunEnd.deadlineRem = none ∧
    proxyRunEnd.deadlineLoc = some (0 + 30 * second) ∧
    ioAllowed (some (30 * second)) (30 * second) = false := by
  have h := proxy_deadline_absolute_never_refreshed
  have h2 := h.2.1 .fwd 0 (30 * second) proxyRunEnd proxyRunEnd_reach
  exact ⟨h2.1, h2.2 rfl, h.2.2 (30 * second) (30 * second) le_rfl⟩

end SshTunnel
